import Mathlib

/-!
Shallow embedding of the AI-IMAGE-GENERATOR-AND-EDITOR repository
(React chat UI around the Gemini generation API), covering:

* `src/types.ts` — the data model (`ChatMessage`, `RequestPayload`, …);
* `src/constants.ts` — file-validation constants;
* the Gemini service (`callGeminiApi` and the module-level API-key check);
* `src/App.tsx` — the conversation store and the submit / retry / edit
  orchestration (`processRequest`, `handleSubmit`, `handleRetry`,
  `handleEdit`, and the localStorage save / load effects);
* the `ChatInput` component — the submit guard and `handleFilesChange`;
* `src/components/ImageModal.tsx` — the wheel-zoom handler.

Nondeterministic ingredients of the JavaScript runtime are passed as
explicit parameters: freshly generated ids (`Date.now()`-based) become
explicit `String` arguments, and the remote API becomes an oracle
`remote : Nat → Except JsValue GenResponse` giving the outcome of the
k-th issued call.  JavaScript `undefined`-able fields become `Option`s.
-/

namespace AIGen

/-! ## Data model (`src/types.ts`) -/

inductive MessageRole
  | user
  | bot
deriving DecidableEq

structure ImageFile where
  base64 : String
  mimeType : String
deriving DecidableEq

inductive ResponseType
  | image
  | text
deriving DecidableEq

inductive AspectRatio
  | r1x1
  | r16x9
  | r9x16
  | r4x3
  | r3x4
deriving DecidableEq

/-- `VariationCount = 1 | 2 | 4` in `types.ts`. -/
inductive VariationCount
  | one
  | two
  | four
deriving DecidableEq

def VariationCount.toNat : VariationCount → Nat
  | .one => 1
  | .two => 2
  | .four => 4

structure GenerationOptions where
  aspectRatio : AspectRatio
  variations : VariationCount
  negativePrompt : String
deriving DecidableEq

structure RequestPayload where
  prompt : String
  images : List ImageFile
  options : GenerationOptions
  responseType : ResponseType
deriving DecidableEq

structure ChatMessage where
  id : String
  role : MessageRole
  text : Option String := none
  imagePreviewUrls : Option (List String) := none
  isEditing : Option Bool := none
  requestPayload : Option RequestPayload := none
  generatedImages : Option (List String) := none
  isLoading : Option Bool := none
  error : Option String := none
  userMessageId : Option String := none
deriving DecidableEq

/-! ## Constants (`src/constants.ts`) -/

def MAX_FILE_SIZE_MB : Nat := 10

def MAX_FILE_SIZE_BYTES : Nat := MAX_FILE_SIZE_MB * 1024 * 1024

def ACCEPTED_IMAGE_TYPES : List String := ["image/jpeg", "image/png", "image/webp"]

/-! ## Gemini service (the module holding `callGeminiApi`)

The `@google/genai` response shape is embedded structurally: a response
has an optional list of candidates, each with content parts that may
carry inline image data, plus an optional aggregated `text`. -/

/-- The constructed API client (`new GoogleGenAI({apiKey})`). -/
structure GoogleGenAI where
  apiKey : String
deriving DecidableEq

/--
Module initialization of the Gemini service:
`if (!process.env.API_KEY) throw new Error(...)` followed by
`const ai = new GoogleGenAI({ apiKey: process.env.API_KEY })`.
`process.env.API_KEY` is `Option String`; both absence and the empty
string are falsy in JavaScript, so both throw.
-/
def loadGeminiService : Option String → Except String GoogleGenAI
  | none => .error "API_KEY environment variable is not set"
  | some k =>
      if k = "" then .error "API_KEY environment variable is not set"
      else .ok { apiKey := k }

structure InlineData where
  data : String
  mimeType : String
deriving DecidableEq

structure Part where
  inlineData : Option InlineData := none
  text : Option String := none
deriving DecidableEq

structure Content where
  parts : List Part
deriving DecidableEq

structure Candidate where
  content : Content
deriving DecidableEq

/-- One remote `generateContent` response. -/
structure GenResponse where
  candidates : Option (List Candidate) := none
  text : Option String := none
deriving DecidableEq

/-- A JavaScript exception: either an `Error` instance carrying a
message, or some other (non-`Error`) thrown value. -/
inductive JsValue
  | error (message : String)
  | other
deriving DecidableEq

/-- The resolved value of `callGeminiApi`: `{ images?, text? }`. -/
structure ApiResult where
  images : Option (List String) := none
  text : Option String := none
deriving DecidableEq

/-- `const variationCount = responseType === 'image' ? variations : 1`. -/
def variationCount (p : RequestPayload) : Nat :=
  if p.responseType = .image then p.options.variations.toNat else 1

/-- The images contributed by one content part:
`if (part.inlineData?.data) base64Images.push(part.inlineData.data)`
(an empty data string is falsy and is skipped). -/
def partImages (part : Part) : List String :=
  match part.inlineData with
  | some d => if d.data = "" then [] else [d.data]
  | none => []

/-- The images contributed by one remote call, in candidate order then
part order (`response.candidates?.forEach(c => c.content.parts.forEach ...)`). -/
def responseImages (r : GenResponse) : List String :=
  (r.candidates.getD []).flatMap (fun c => c.content.parts.flatMap partImages)

/-- `base64Images` accumulated over `responses.forEach`, i.e. all images
from all calls in call order then per-call (candidate, part) order. -/
def collectBase64Images (responses : List GenResponse) : List String :=
  responses.flatMap responseImages

/-- `Promise.all`: all fulfilled values in call order, or a rejection if
any call rejects (modelled as the first rejection in call order). -/
def joinAll : List (Except JsValue GenResponse) → Except JsValue (List GenResponse)
  | [] => .ok []
  | .error e :: _ => .error e
  | .ok r :: rest => (joinAll rest).map (fun rs => r :: rs)

/-- `responses[0].text` (the service only reads it when at least one
call was issued, so the list is nonempty there). -/
def firstText (responses : List GenResponse) : Option String :=
  responses.head?.bind (fun r => r.text)

def emptyTextMsg : String := "The model returned an empty text response."

def noImagesMsg : String :=
  "No images were generated. The prompt may have been blocked or the response was empty."

/-- The `catch` block of `callGeminiApi`:
`Error` instances are re-wrapped with an `API Error:` message header,
anything else becomes a generic message. -/
def wrapApiError : JsValue → String
  | .error m => "API Error: " ++ m
  | .other => "An unknown error occurred while calling the API."

/--
The `try` block of `callGeminiApi`: issue `variationCount p` calls
(call k has outcome `remote k`), join them, then branch on the response
type.  The empty-text and empty-images `throw new Error(...)` happen
inside the same `try`, so they surface as `JsValue.error` here.
-/
def geminiTryBody (p : RequestPayload) (remote : Nat → Except JsValue GenResponse) :
    Except JsValue ApiResult :=
  match joinAll ((List.range (variationCount p)).map remote) with
  | .error e => .error e
  | .ok responses =>
      if p.responseType = .text then
        match firstText responses with
        | some t => if t = "" then .error (.error emptyTextMsg) else .ok { text := some t }
        | none => .error (.error emptyTextMsg)
      else
        if collectBase64Images responses = [] then .error (.error noImagesMsg)
        else .ok { images := some (collectBase64Images responses) }

/-- `callGeminiApi`: the try body with its catch-and-rewrap. -/
def callGeminiApi (p : RequestPayload)
    (remote : Nat → Except JsValue GenResponse) : Except String ApiResult :=
  match geminiTryBody p remote with
  | .ok r => .ok r
  | .error e => .error (wrapApiError e)

/-! ## Conversation store and orchestration (`src/App.tsx`) -/

abbrev Conversation := List ChatMessage

/-- The freshly created loading bot entry of `processRequest`. -/
def mkLoadingBot (botMessageId userMessageId : String) : ChatMessage :=
  { id := botMessageId, role := .bot, isLoading := some true,
    userMessageId := some userMessageId }

/--
The terminal bot entry `processRequest` writes after the call settles:
on success `{ id, role, generatedImages: response.images, text: response.text,
userMessageId }`, on failure `{ id, role, error, userMessageId }` (the
thrown value is always an `Error`, whose message is the payload of the
`Except.error`).
-/
def terminalBot (botMessageId userMessageId : String) :
    Except String ApiResult → ChatMessage
  | .ok r =>
      { id := botMessageId, role := .bot, generatedImages := r.images,
        text := r.text, userMessageId := some userMessageId }
  | .error e =>
      { id := botMessageId, role := .bot, error := some e,
        userMessageId := some userMessageId }

/-- `prev.map(msg => msg.id === targetId ? newMsg : msg)`. -/
def replaceById (msgs : Conversation) (targetId : String) (newMsg : ChatMessage) :
    Conversation :=
  msgs.map (fun m => if m.id = targetId then newMsg else m)

/-- The two conversation states `processRequest` produces: after the
loading placeholder is installed, and after the call settles. -/
structure ProcessTrace where
  afterLoading : Conversation
  final : Conversation
deriving DecidableEq

/--
`processRequest(requestPayload, userMessageId, existingBotMessageId?)`:
`botMessageId = existingBotMessageId || freshBotId`; install the loading
bot entry (replace in place when an existing id was given, append
otherwise); run `callGeminiApi`; replace the bot entry by id with the
terminal entry.
-/
def processRequest (msgs : Conversation)
    (requestPayload : RequestPayload) (userMessageId : String)
    (existingBotMessageId : Option String) (freshBotId : String)
    (remote : Nat → Except JsValue GenResponse) : ProcessTrace :=
  let botMessageId := existingBotMessageId.getD freshBotId
  let loadingBotMessage := mkLoadingBot botMessageId userMessageId
  let afterLoading :=
    match existingBotMessageId with
    | some eid => replaceById msgs eid loadingBotMessage
    | none => msgs ++ [loadingBotMessage]
  let outcome := callGeminiApi requestPayload remote
  { afterLoading := afterLoading
    final := replaceById afterLoading botMessageId
      (terminalBot botMessageId userMessageId outcome) }

/-- The conversation states `handleSubmit` produces, plus the payload it
constructs. -/
structure SubmitTrace where
  payload : RequestPayload
  afterUser : Conversation
  afterLoading : Conversation
  final : Conversation
deriving DecidableEq

/--
`handleSubmit(prompt, files, options)`: encode the files (the encoded
`ImageFile`s and the preview URLs are taken as inputs here), derive
`responseType = files.length > 1 ? 'text' : 'image'`, build the payload
and the user entry, append the user entry, then run `processRequest`
with no existing bot id.
-/
def handleSubmit (msgs : Conversation) (prompt : String)
    (files : List ImageFile) (imagePreviewUrls : List String)
    (options : GenerationOptions) (userMessageId freshBotId : String)
    (remote : Nat → Except JsValue GenResponse) : SubmitTrace :=
  let responseType : ResponseType := if files.length > 1 then .text else .image
  let requestPayload : RequestPayload :=
    { prompt := prompt, images := files, options := options,
      responseType := responseType }
  let userMessage : ChatMessage :=
    { id := userMessageId, role := .user, text := some prompt,
      imagePreviewUrls := some imagePreviewUrls,
      requestPayload := some requestPayload }
  let afterUser := msgs ++ [userMessage]
  let tr := processRequest afterUser requestPayload userMessageId none
    freshBotId remote
  { payload := requestPayload, afterUser := afterUser,
    afterLoading := tr.afterLoading, final := tr.final }

/-- JavaScript `String.prototype.trim`: strip leading and trailing
whitespace (modelled on the character list so that it evaluates). -/
def jsTrim (s : String) : String :=
  ⟨((s.data.dropWhile Char.isWhitespace).reverse.dropWhile
      Char.isWhitespace).reverse⟩

/-- The `ChatInput` submit guard:
`if (!prompt.trim() || isLoading) return;` then
`onSubmit(prompt.trim(), files, options)`. -/
def chatInputSubmit (isLoading : Bool) (msgs : Conversation)
    (prompt : String) (files : List ImageFile) (imagePreviewUrls : List String)
    (options : GenerationOptions) (userMessageId freshBotId : String)
    (remote : Nat → Except JsValue GenResponse) : Option SubmitTrace :=
  if jsTrim prompt = "" ∨ isLoading = true then none
  else some (handleSubmit msgs (jsTrim prompt) files imagePreviewUrls options
    userMessageId freshBotId remote)

/-- The outcome of a retry / edit invocation: the resulting conversation,
the payload handed to `processRequest` (`none` when the operation was
aborted), and whether the abort was logged via `console.error`. -/
structure OpResult where
  final : Conversation
  issuedPayload : Option RequestPayload
  loggedError : Bool
deriving DecidableEq

/--
`handleRetry(userMessageId)`: look up the user entry by id and the bot
entry by `userMessageId`; when `userMessage?.requestPayload && botMessage`
re-run `processRequest` against the existing bot id, else
`console.error` and do nothing.
-/
def handleRetry (msgs : Conversation) (userMessageId : String)
    (remote : Nat → Except JsValue GenResponse) : OpResult :=
  let userMessage := msgs.find? (fun m => m.id == userMessageId)
  let botMessage := msgs.find? (fun m => m.userMessageId == some userMessageId)
  match userMessage.bind (fun m => m.requestPayload), botMessage with
  | some payload, some b =>
      { final := (processRequest msgs payload userMessageId (some b.id) "" remote).final
        issuedPayload := some payload
        loggedError := false }
  | _, _ => { final := msgs, issuedPayload := none, loggedError := true }

/--
The `setMessages` updater of `handleEdit`: every entry whose id matches
gets `text := newPrompt` and its payload prompt rewritten
(`{...msg.requestPayload!, prompt: newPrompt}`; when the payload is
absent JavaScript builds a degenerate object from spreading `undefined`,
modelled as leaving the absent payload absent — that branch aborts
before the payload is ever used).
-/
def editUserUpdate (msgs : Conversation) (userMessageId newPrompt : String) :
    Conversation :=
  msgs.map (fun m =>
    if m.id = userMessageId then
      { m with text := some newPrompt,
               requestPayload := m.requestPayload.map
                 (fun p => { p with prompt := newPrompt }) }
    else m)

/-- `originalRequestPayload` as captured inside the updater: the last
matching entry's payload (the updater assigns on every match). -/
def editOriginalPayload (msgs : Conversation) (userMessageId : String) :
    Option RequestPayload :=
  ((msgs.filter (fun m => m.id == userMessageId)).getLast?).bind
    (fun m => m.requestPayload)

/--
`handleEdit(userMessageId, newPrompt)`: update the user entry in place,
then look up the bot entry in the pre-update `messages` closure; when
both the captured original payload and the bot entry exist, re-run
`processRequest` with `{...original, prompt: newPrompt}` against the
existing bot id (the updater has already been queued, so `processRequest`
operates on the updated conversation); else `console.error`.
-/
def handleEdit (msgs : Conversation)
    (userMessageId newPrompt : String)
    (remote : Nat → Except JsValue GenResponse) : OpResult :=
  let updated := editUserUpdate msgs userMessageId newPrompt
  let botMessage := msgs.find? (fun m => m.userMessageId == some userMessageId)
  match editOriginalPayload msgs userMessageId, botMessage with
  | some orig, some b =>
      let newRequestPayload : RequestPayload := { orig with prompt := newPrompt }
      { final := (processRequest updated newRequestPayload userMessageId
          (some b.id) "" remote).final
        issuedPayload := some newRequestPayload
        loggedError := false }
  | _, _ => { final := updated, issuedPayload := none, loggedError := true }

/-! ## Persistence effects (`src/App.tsx`, the two `useEffect` hooks) -/

/-- `messages.filter(msg => !msg.isLoading)`. -/
def savableMessages (msgs : Conversation) : Conversation :=
  msgs.filter (fun m => m.isLoading != some true)

/-- The durable local storage: the single `chatHistory` slot. -/
structure Storage where
  chatHistory : Option Conversation
deriving DecidableEq

/-- The save effect: store the filtered sequence when nonempty, else
remove the key entirely. -/
def saveEffect (msgs : Conversation) : Storage :=
  let savable := savableMessages msgs
  if savable.length > 0 then { chatHistory := some savable }
  else { chatHistory := none }

/-- The load effect: restore from the key when present, dropping loading
entries (`parsedMessages.filter(msg => !msg.isLoading)`); otherwise the
conversation starts empty. -/
def loadEffect (st : Storage) : Conversation :=
  match st.chatHistory with
  | some parsedMessages => parsedMessages.filter (fun m => m.isLoading != some true)
  | none => []

/-! ## File input validation (the `ChatInput` component) -/

/-- A browser `File`: only the fields the validator reads. -/
structure File where
  name : String
  type : String
  size : Nat
deriving DecidableEq

/-- The accepted files and the `alert` messages produced by one batch. -/
structure FilesChangeResult where
  newFiles : List File
  alerts : List String
deriving DecidableEq

/--
The loop body of `handleFilesChange`: reject a file whose type is not in
`ACCEPTED_IMAGE_TYPES` or whose size is strictly above
`MAX_FILE_SIZE_BYTES`, each with its own `alert`, and keep the rest in
order.
-/
def processSelectedFiles : List File → FilesChangeResult
  | [] => { newFiles := [], alerts := [] }
  | file :: rest =>
      let r := processSelectedFiles rest
      if file.type ∉ ACCEPTED_IMAGE_TYPES then
        { newFiles := r.newFiles
          alerts := ("Invalid file type: " ++ file.name ++
            ". Please select a JPEG, PNG, or WEBP file.") :: r.alerts }
      else if file.size > MAX_FILE_SIZE_BYTES then
        { newFiles := r.newFiles
          alerts := ("File is too large: " ++ file.name ++
            ". Maximum size is 10MB.") :: r.alerts }
      else
        { newFiles := file :: r.newFiles, alerts := r.alerts }

/-- `handleFilesChange(selectedFiles)`:
`setFiles(prev => [...prev, ...newFiles])`, and the alerts raised. -/
def handleFilesChange (prevFiles : List File) (selectedFiles : List File) :
    List File × List String :=
  let r := processSelectedFiles selectedFiles
  (prevFiles ++ r.newFiles, r.alerts)

/-- A file passes validation when its type is allow-listed and its size
does not exceed the ceiling. -/
def isValidFile (f : File) : Bool :=
  decide (f.type ∈ ACCEPTED_IMAGE_TYPES) && decide (f.size ≤ MAX_FILE_SIZE_BYTES)

/-! ## Image viewer zoom (`src/components/ImageModal.tsx`) -/

/--
`handleWheel`: `newZoom = prevZoom - deltaY * zoomFactor * 0.1` with
`zoomFactor = 0.1`, then `Math.max(0.5, Math.min(newZoom, 5))`.
Numeric state is modelled over `ℚ`.
-/
def handleWheel (prevZoom deltaY : ℚ) : ℚ :=
  let zoomFactor : ℚ := 1 / 10
  let newZoom := prevZoom - deltaY * zoomFactor * (1 / 10)
  max (1 / 2) (min newZoom 5)

/-- The zoom value after each wheel update, starting from `z`. -/
def zoomTrace (z : ℚ) : List ℚ → List ℚ
  | [] => []
  | d :: ds =>
      let z1 := handleWheel z d
      z1 :: zoomTrace z1 ds

/-! ## Terminal-state predicates (spec §3: a bot entry is in exactly one
of loading / success / error) -/

def isTerminalSuccess (m : ChatMessage) : Prop :=
  m.isLoading ≠ some true ∧ m.error = none ∧
    (m.generatedImages ≠ none ∨ m.text ≠ none)

def isTerminalError (m : ChatMessage) : Prop :=
  m.isLoading ≠ some true ∧ m.error ≠ none

/-! ## Concrete exemplar values used by witnesses -/

def exOptions : GenerationOptions :=
  { aspectRatio := .r1x1, variations := .one, negativePrompt := "" }

def exImagePayload : RequestPayload :=
  { prompt := "a cat", images := [], options := exOptions, responseType := .image }

def exTextPayload : RequestPayload :=
  { prompt := "what is this", images := [], options := exOptions, responseType := .text }

def exGenResponse : GenResponse :=
  { candidates := some [{ content := { parts :=
      [{ inlineData := some { data := "IMG", mimeType := "image/png" } }] } }] }

def exRemoteOk : Nat → Except JsValue GenResponse := fun _ => .ok exGenResponse

def exLoadingBot : ChatMessage :=
  { id := "b1", role := .bot, isLoading := some true, userMessageId := some "u1" }

def exUserMsg : ChatMessage :=
  { id := "u1", role := .user, text := some "hi",
    requestPayload := some exImagePayload }

def exBotMsg : ChatMessage :=
  { id := "b1", role := .bot, text := some "done", userMessageId := some "u1" }

def exStorage : Storage := { chatHistory := some [exUserMsg] }

/-! ## Helper lemmas -/

theorem mem_filter_not_loading {msgs : Conversation} {m : ChatMessage}
    (h : m ∈ msgs.filter (fun m => m.isLoading != some true)) :
    m.isLoading ≠ some true := by
  have := (List.mem_filter.mp h).2
  exact bne_iff_ne.mp this

theorem replaceById_length (msgs : Conversation) (tid : String) (nm : ChatMessage) :
    (replaceById msgs tid nm).length = msgs.length := by
  simp [replaceById]

theorem replaceById_map_id (msgs : Conversation) (tid : String) (nm : ChatMessage)
    (h : nm.id = tid) :
    (replaceById msgs tid nm).map (fun m => m.id) = msgs.map (fun m => m.id) := by
  unfold replaceById
  rw [List.map_map]
  refine List.map_congr_left (fun m _ => ?_)
  by_cases hm : m.id = tid
  · simp [Function.comp, hm, h]
  · simp [Function.comp, hm]

theorem replaceById_getElem?_untouched (msgs : Conversation) (tid : String)
    (nm : ChatMessage) (i : Nat) (m : ChatMessage)
    (hm : msgs[i]? = some m) (h : m.id ≠ tid) :
    (replaceById msgs tid nm)[i]? = some m := by
  unfold replaceById
  rw [List.getElem?_map, hm]
  simp [h]

theorem map_untouched (msgs : Conversation) (tid : String) (nm : ChatMessage)
    (h : ∀ m ∈ msgs, m.id ≠ tid) :
    msgs.map (fun m => if m.id = tid then nm else m) = msgs := by
  have : msgs.map (fun m => if m.id = tid then nm else m) = msgs.map id :=
    List.map_congr_left (fun m hm => by simp [h m hm])
  simpa using this

/-! ## Claim theorems -/

/-- C5: for every submission, the derived `responseType` of the
constructed `RequestPayload` is `text` exactly when more than one image
file is attached, and `image` when zero or one is attached. -/
theorem claim5_response_type_derivation (msgs : Conversation) (prompt : String)
    (files : List ImageFile) (previews : List String) (options : GenerationOptions)
    (uid bid : String) (remote : Nat → Except JsValue GenResponse) :
    ((handleSubmit msgs prompt files previews options uid bid remote).payload.responseType
        = .text ↔ files.length > 1) ∧
    ((handleSubmit msgs prompt files previews options uid bid remote).payload.responseType
        = .image ↔ files.length ≤ 1) := by
  by_cases h : files.length > 1 <;>
    (simp [handleSubmit, h]; try omega)

/-- C6: after every mutation, the sequence written to local storage under
the fixed key contains zero loading entries; when nothing remains after
filtering, the key is removed rather than an empty sequence stored; and
reloaded persisted state contains no loading entries. -/
theorem claim6_persistence_no_loading (msgs : Conversation) (st : Storage) :
    (∀ s, (saveEffect msgs).chatHistory = some s →
        s ≠ [] ∧ ∀ m ∈ s, m.isLoading ≠ some true) ∧
    (savableMessages msgs = [] → (saveEffect msgs).chatHistory = none) ∧
    (∀ m, m ∈ loadEffect st → m.isLoading ≠ some true) := by
  refine ⟨?_, ?_, ?_⟩
  · intro s hs
    by_cases hlen : (savableMessages msgs).length > 0
    · have hsome : (saveEffect msgs).chatHistory = some (savableMessages msgs) := by
        unfold saveEffect
        simp [hlen]
      rw [hsome] at hs
      injection hs with hs
      subst hs
      refine ⟨?_, ?_⟩
      · intro hnil
        rw [hnil] at hlen
        simp at hlen
      · intro m hm
        exact mem_filter_not_loading hm
    · have hnone : (saveEffect msgs).chatHistory = none := by
        unfold saveEffect
        simp [hlen]
      rw [hnone] at hs
      exact absurd hs (by simp)
  · intro h
    unfold saveEffect
    rw [h]
    simp
  · intro m hm
    unfold loadEffect at hm
    match hst : st.chatHistory with
    | some parsed =>
        rw [hst] at hm
        exact mem_filter_not_loading hm
    | none =>
        rw [hst] at hm
        simp at hm

theorem claim6_persistence_no_loading_witness :
    (savableMessages [exLoadingBot] = []) ∧
    ((saveEffect [exLoadingBot]).chatHistory = none) ∧
    (exUserMsg.isLoading ≠ some true) :=
  ⟨by decide,
   (claim6_persistence_no_loading [exLoadingBot] exStorage).2.1 (by decide),
   (claim6_persistence_no_loading [exLoadingBot] exStorage).2.2 exUserMsg (by decide)⟩

/-! Files for the C8 batch exemplar. -/

def exFile1 : File := { name := "a.png", type := "image/png", size := 100 }

def exFileBig : File :=
  { name := "big.png", type := "image/png", size := MAX_FILE_SIZE_BYTES + 1 }

def exFile3 : File := { name := "c.jpg", type := "image/jpeg", size := 3 }

theorem processSelectedFiles_spec (batch : List File) :
    (processSelectedFiles batch).newFiles = batch.filter isValidFile ∧
    (processSelectedFiles batch).alerts.length
      = (batch.filter (fun f => !(isValidFile f))).length := by
  induction batch with
  | nil => exact ⟨rfl, rfl⟩
  | cons f rest ih =>
    obtain ⟨ih1, ih2⟩ := ih
    by_cases hc : f.type ∈ ACCEPTED_IMAGE_TYPES
    · by_cases hs : f.size ≤ MAX_FILE_SIZE_BYTES
      · have hns : ¬ (MAX_FILE_SIZE_BYTES < f.size) := by omega
        constructor <;>
          simp [processSelectedFiles, hc, hns, List.filter_cons, isValidFile, hs, ih1, ih2]
      · have hns : MAX_FILE_SIZE_BYTES < f.size := by omega
        constructor <;>
          simp [processSelectedFiles, hc, hns, List.filter_cons, isValidFile, hs, ih1, ih2]
    · constructor <;>
        simp [processSelectedFiles, hc, List.filter_cons, isValidFile, ih1, ih2]

theorem processSelectedFiles_newFiles (batch : List File) :
    (processSelectedFiles batch).newFiles = batch.filter isValidFile :=
  (processSelectedFiles_spec batch).1

theorem processSelectedFiles_alerts (batch : List File) :
    (processSelectedFiles batch).alerts.length
      = (batch.filter (fun f => !(isValidFile f))).length :=
  (processSelectedFiles_spec batch).2

/-- C8: invalid files (disallowed type or size above the 10 MiB ceiling)
are rejected individually with a user-facing message while the remaining
valid files of the same batch are accepted in order; a 3-file batch whose
middle file is oversized yields exactly 2 accepted files. -/
theorem claim8_file_validation :
    (∀ batch : List File,
      (processSelectedFiles batch).newFiles = batch.filter isValidFile) ∧
    (∀ batch : List File,
      (processSelectedFiles batch).alerts.length
        = (batch.filter (fun f => !(isValidFile f))).length) ∧
    (handleFilesChange [] [exFile1, exFileBig, exFile3]).1 = [exFile1, exFile3] ∧
    (handleFilesChange [] [exFile1, exFileBig, exFile3]).1.length = 2 ∧
    (handleFilesChange [] [exFile1, exFileBig, exFile3]).2.length = 1 := by
  refine ⟨processSelectedFiles_newFiles, processSelectedFiles_alerts, ?_, ?_, ?_⟩ <;> decide

theorem handleWheel_bounds (z d : ℚ) :
    1 / 2 ≤ handleWheel z d ∧ handleWheel z d ≤ 5 := by
  unfold handleWheel
  constructor
  · exact le_max_left _ _
  · apply max_le
    · norm_num
    · exact min_le_right _ _

theorem zoomTrace_bounds (ds : List ℚ) :
    ∀ z0 z, z ∈ zoomTrace z0 ds → 1 / 2 ≤ z ∧ z ≤ 5 := by
  induction ds with
  | nil =>
    intro z0 z h
    simp [zoomTrace] at h
  | cons d ds ih =>
    intro z0 z h
    simp only [zoomTrace, List.mem_cons] at h
    rcases h with h | h
    · subst h
      exact handleWheel_bounds z0 d
    · exact ih _ z h

/-- C9: starting from the initial zoom value 1, the zoom after each
wheel-delta update stays within `[0.5, 5]`, whatever the deltas are. -/
theorem claim9_zoom_clamped (deltas : List ℚ) (z : ℚ)
    (hz : z ∈ zoomTrace 1 deltas) : 1 / 2 ≤ z ∧ z ≤ 5 :=
  zoomTrace_bounds deltas 1 z hz

theorem claim9_zoom_clamped_witness :
    ((1 : ℚ) ∈ zoomTrace 1 [1000]) ∨
      ((1 / 2 : ℚ) ∈ zoomTrace 1 [1000] ∧
        (1 / 2 ≤ (1 / 2 : ℚ) ∧ (1 / 2 : ℚ) ≤ 5)) := by
  refine Or.inr ⟨?_, claim9_zoom_clamped [1000] (1 / 2) ?_⟩ <;>
    norm_num [zoomTrace, handleWheel]

/-- C10: with `API_KEY` unset, module initialization of the generation
client fails with the fixed message, and a client can only be obtained
from a configured, non-empty key. -/
theorem claim10_api_key_check :
    loadGeminiService none = .error "API_KEY environment variable is not set" ∧
    (∀ env client, loadGeminiService env = .ok client →
      env = some client.apiKey ∧ client.apiKey ≠ "") := by
  refine ⟨rfl, ?_⟩
  intro env client h
  match env with
  | none => simp [loadGeminiService] at h
  | some k =>
    unfold loadGeminiService at h
    by_cases hk : k = ""
    · simp [hk] at h
    · simp only [hk, if_false, Except.ok.injEq] at h
      subst h
      exact ⟨rfl, hk⟩

theorem claim10_api_key_check_witness :
    loadGeminiService none = .error "API_KEY environment variable is not set" ∧
    (some "key" = some ({ apiKey := "key" } : GoogleGenAI).apiKey ∧
      ({ apiKey := "key" } : GoogleGenAI).apiKey ≠ "") :=
  ⟨claim10_api_key_check.1,
   claim10_api_key_check.2 (some "key") { apiKey := "key" } (by rfl)⟩

/-! ## Generation client: C3 and C4 -/

theorem callGeminiApi_depends_only_on_issued (p : RequestPayload)
    (remote remote₂ : Nat → Except JsValue GenResponse)
    (h : ∀ i, i < variationCount p → remote i = remote₂ i) :
    callGeminiApi p remote = callGeminiApi p remote₂ := by
  have hmap : (List.range (variationCount p)).map remote
      = (List.range (variationCount p)).map remote₂ :=
    List.map_congr_left (fun i hi => h i (List.mem_range.mp hi))
  unfold callGeminiApi geminiTryBody
  rw [hmap]

theorem joinAll_isError (xs : List (Except JsValue GenResponse)) (e : JsValue)
    (hmem : Except.error e ∈ xs) : ∃ e2, joinAll xs = .error e2 := by
  induction xs with
  | nil => simp at hmem
  | cons x rest ih =>
    cases x with
    | error e1 => exact ⟨e1, rfl⟩
    | ok r =>
        rcases List.mem_cons.mp hmem with h | h
        · exact absurd h (by simp)
        · obtain ⟨e2, h2⟩ := ih h
          refine ⟨e2, ?_⟩
          rw [show joinAll (Except.ok r :: rest)
              = (joinAll rest).map (fun rs => r :: rs) from rfl, h2]
          rfl

theorem geminiTryBody_ok_shape (p : RequestPayload)
    (remote : Nat → Except JsValue GenResponse) (r : ApiResult)
    (h : geminiTryBody p remote = .ok r) :
    r.images ≠ none ∨ r.text ≠ none := by
  unfold geminiTryBody at h
  split at h
  · exact absurd h (by simp)
  · split at h
    · split at h
      · split at h
        · exact absurd h (by simp)
        · injection h with h
          subst h
          right
          simp
      · exact absurd h (by simp)
    · split at h
      · exact absurd h (by simp)
      · injection h with h
        subst h
        left
        simp

theorem callGeminiApi_ok_shape (p : RequestPayload)
    (remote : Nat → Except JsValue GenResponse) (r : ApiResult)
    (h : callGeminiApi p remote = .ok r) :
    r.images ≠ none ∨ r.text ≠ none := by
  unfold callGeminiApi at h
  split at h
  · rename_i r2 hbody
    injection h with h
    subst h
    exact geminiTryBody_ok_shape p remote r2 hbody
  · exact absurd h (by simp)

/-- C3: the client issues `variations` calls in image mode and one call
in text mode (and depends on the oracle only at those call indices); in
image mode, when all calls succeed, it returns the concatenation of all
returned images in call order then per-call part order, of length the
sum of per-call image counts, and fails with an `ApiError` when that
combined sequence is empty; in text mode it returns the first call's
text and fails with an `ApiError` on an absent or empty text. -/
theorem claim3_generation_client (p : RequestPayload)
    (remote : Nat → Except JsValue GenResponse) :
    (p.responseType = .image → variationCount p = p.options.variations.toNat) ∧
    (p.responseType = .text → variationCount p = 1) ∧
    (∀ remote₂, (∀ i, i < variationCount p → remote i = remote₂ i) →
        callGeminiApi p remote = callGeminiApi p remote₂) ∧
    (∀ responses, joinAll ((List.range (variationCount p)).map remote) = .ok responses →
      (p.responseType = .image →
        (collectBase64Images responses ≠ [] →
          callGeminiApi p remote
              = .ok { images := some (collectBase64Images responses) } ∧
          (collectBase64Images responses).length
              = (responses.map (fun r => (responseImages r).length)).sum) ∧
        (collectBase64Images responses = [] →
          callGeminiApi p remote = .error (wrapApiError (.error noImagesMsg)))) ∧
      (p.responseType = .text →
        (∀ t, firstText responses = some t → t ≠ "" →
            callGeminiApi p remote = .ok { text := some t }) ∧
        (firstText responses = none ∨ firstText responses = some "" →
            callGeminiApi p remote = .error (wrapApiError (.error emptyTextMsg))))) := by
  refine ⟨?_, ?_, callGeminiApi_depends_only_on_issued p remote, ?_⟩
  · intro h
    simp [variationCount, h]
  · intro h
    simp [variationCount, h]
  · intro responses hjoin
    constructor
    · intro himg
      constructor
      · intro hne
        constructor
        · simp [callGeminiApi, geminiTryBody, hjoin, himg, hne]
        · simp [collectBase64Images, Function.comp_def, List.length_flatMap]
      · intro he
        simp [callGeminiApi, geminiTryBody, hjoin, himg, he]
    · intro htext
      constructor
      · intro t ht hne
        simp [callGeminiApi, geminiTryBody, hjoin, htext, ht, hne]
      · intro hcase
        rcases hcase with h | h <;>
          simp [callGeminiApi, geminiTryBody, hjoin, htext, h]

theorem claim3_generation_client_witness :
    callGeminiApi exImagePayload exRemoteOk
        = .ok { images := some (collectBase64Images [exGenResponse]) } ∧
    (collectBase64Images [exGenResponse]).length
        = ([exGenResponse].map (fun r => (responseImages r).length)).sum :=
  (((claim3_generation_client exImagePayload exRemoteOk).2.2.2 [exGenResponse]
      (by rfl)).1 rfl).1 (by decide)

def exRemoteErr : Nat → Except JsValue GenResponse :=
  fun _ => .error (.error "network down")

/-- C4: in image mode, one failing parallel call fails the whole
generation with an `ApiError` and no partial image sequence; thrown
`Error`s are re-wrapped with a human-readable message and non-`Error`
shapes map to a generic message. -/
theorem claim4_all_or_nothing (p : RequestPayload)
    (remote : Nat → Except JsValue GenResponse) (k : Nat) (e : JsValue)
    (_himg : p.responseType = .image) (hk : k < variationCount p)
    (hfail : remote k = .error e) :
    (∃ msg, callGeminiApi p remote = .error msg ∧
        ∀ r, callGeminiApi p remote ≠ .ok r) ∧
    (∀ m, wrapApiError (.error m) = "API Error: " ++ m) ∧
    wrapApiError .other = "An unknown error occurred while calling the API." := by
  refine ⟨?_, fun m => rfl, rfl⟩
  have hmem : Except.error e ∈ (List.range (variationCount p)).map remote :=
    List.mem_map.mpr ⟨k, List.mem_range.mpr hk, hfail⟩
  obtain ⟨e2, h2⟩ := joinAll_isError _ e hmem
  refine ⟨wrapApiError e2, ?_, ?_⟩
  · simp [callGeminiApi, geminiTryBody, h2]
  · intro r hr
    simp [callGeminiApi, geminiTryBody, h2] at hr

theorem claim4_all_or_nothing_witness :
    (∃ msg, callGeminiApi exImagePayload exRemoteErr = .error msg ∧
        ∀ r, callGeminiApi exImagePayload exRemoteErr ≠ .ok r) ∧
    (∀ m, wrapApiError (.error m) = "API Error: " ++ m) ∧
    wrapApiError .other = "An unknown error occurred while calling the API." :=
  claim4_all_or_nothing exImagePayload exRemoteErr 0 (.error "network down")
    rfl (by decide) rfl

/-! ## Orchestration: C1, C2 and C7 -/

theorem terminalBot_id (b u : String) (o : Except String ApiResult) :
    (terminalBot b u o).id = b := by
  cases o <;> rfl

theorem terminalBot_role (b u : String) (o : Except String ApiResult) :
    (terminalBot b u o).role = .bot := by
  cases o <;> rfl

theorem terminalBot_userMessageId (b u : String) (o : Except String ApiResult) :
    (terminalBot b u o).userMessageId = some u := by
  cases o <;> rfl

theorem terminalBot_isLoading (b u : String) (o : Except String ApiResult) :
    (terminalBot b u o).isLoading = none := by
  cases o <;> rfl

theorem terminalBot_terminal (b u : String) (remote : Nat → Except JsValue GenResponse)
    (p : RequestPayload) :
    isTerminalSuccess (terminalBot b u (callGeminiApi p remote)) ∨
      isTerminalError (terminalBot b u (callGeminiApi p remote)) := by
  cases ho : callGeminiApi p remote with
  | ok r =>
      left
      refine ⟨by simp [terminalBot], rfl, ?_⟩
      have := callGeminiApi_ok_shape p remote r ho
      simpa [terminalBot] using this
  | error e =>
      right
      exact ⟨by simp [terminalBot], by simp [terminalBot]⟩

/-- C1: a valid submission (non-empty trimmed prompt, not loading)
appends exactly one user entry then exactly one loading bot entry, and
after the call settles that bot entry is replaced in place, under the
same id, by exactly one terminal entry that is a success or an error —
never left loading. -/
theorem claim1_submit_lifecycle (msgs : Conversation) (prompt : String)
    (files : List ImageFile) (previews : List String) (options : GenerationOptions)
    (uid bid : String) (remote : Nat → Except JsValue GenResponse)
    (hprompt : jsTrim prompt ≠ "")
    (hfresh : ∀ m ∈ msgs, m.id ≠ bid) (hneq : uid ≠ bid) :
    ∃ tr, chatInputSubmit false msgs prompt files previews options uid bid remote
        = some tr ∧
      ∃ userMessage botTerminal,
        userMessage.id = uid ∧
        userMessage.role = .user ∧
        userMessage.requestPayload = some tr.payload ∧
        tr.afterUser = msgs ++ [userMessage] ∧
        tr.afterLoading = msgs ++ [userMessage, mkLoadingBot bid uid] ∧
        (mkLoadingBot bid uid).isLoading = some true ∧
        (mkLoadingBot bid uid).id = bid ∧
        tr.final = msgs ++ [userMessage, botTerminal] ∧
        botTerminal.id = bid ∧
        botTerminal.role = .bot ∧
        botTerminal.userMessageId = some uid ∧
        botTerminal.isLoading ≠ some true ∧
        (isTerminalSuccess botTerminal ∨ isTerminalError botTerminal) := by
  have hguard : chatInputSubmit false msgs prompt files previews options uid bid remote
      = some (handleSubmit msgs (jsTrim prompt) files previews options uid bid remote) := by
    unfold chatInputSubmit
    rw [if_neg]
    simp [hprompt]
  refine ⟨handleSubmit msgs (jsTrim prompt) files previews options uid bid remote,
    hguard, ?_⟩
  set tr := handleSubmit msgs (jsTrim prompt) files previews options uid bid remote
    with htr
  set payloadv : RequestPayload :=
    { prompt := jsTrim prompt, images := files, options := options,
      responseType := if files.length > 1 then ResponseType.text else ResponseType.image }
    with hpv
  set userMessage : ChatMessage :=
    { id := uid, role := .user, text := some (jsTrim prompt),
      imagePreviewUrls := some previews, requestPayload := some payloadv }
    with hum
  set botTerminal := terminalBot bid uid (callGeminiApi payloadv remote) with hbt
  have hpayload : tr.payload = payloadv := rfl
  have hafterUser : tr.afterUser = msgs ++ [userMessage] := rfl
  have hafterLoading : tr.afterLoading
      = (msgs ++ [userMessage]) ++ [mkLoadingBot bid uid] := rfl
  have hfinal0 : tr.final
      = replaceById ((msgs ++ [userMessage]) ++ [mkLoadingBot bid uid]) bid
          botTerminal := rfl
  refine ⟨userMessage, botTerminal, rfl, rfl, ?_, hafterUser, ?_, rfl, rfl, ?_,
    terminalBot_id bid uid _, terminalBot_role bid uid _,
    terminalBot_userMessageId bid uid _, ?_, terminalBot_terminal bid uid remote payloadv⟩
  · rw [hpayload]
  · rw [hafterLoading, List.append_assoc]
    rfl
  · rw [hfinal0]
    unfold replaceById
    rw [List.map_append, List.map_append]
    rw [map_untouched msgs bid botTerminal hfresh]
    have h1 : [userMessage].map
        (fun m => if m.id = bid then botTerminal else m) = [userMessage] := by
      simp [hum, hneq]
    have h2 : [mkLoadingBot bid uid].map
        (fun m => if m.id = bid then botTerminal else m) = [botTerminal] := by
      simp [mkLoadingBot]
    rw [h1, h2, List.append_assoc]
    rfl
  · rw [terminalBot_isLoading]
    simp

theorem claim1_submit_lifecycle_witness :
    (jsTrim "hi" ≠ "") ∧ ("u1" ≠ "b1") ∧
    (∃ tr, chatInputSubmit false [] "hi" [] [] exOptions "u1" "b1" exRemoteOk
        = some tr) := by
  have h := claim1_submit_lifecycle [] "hi" [] [] exOptions "u1" "b1" exRemoteOk
    (by decide) (by simp) (by decide)
  exact ⟨by decide, by decide, h.elim (fun tr htr => ⟨tr, htr.1⟩)⟩

theorem editUserUpdate_length (msgs : Conversation) (uid np : String) :
    (editUserUpdate msgs uid np).length = msgs.length := by
  simp [editUserUpdate]

theorem editUserUpdate_map_id (msgs : Conversation) (uid np : String) :
    (editUserUpdate msgs uid np).map (fun m => m.id) = msgs.map (fun m => m.id) := by
  unfold editUserUpdate
  rw [List.map_map]
  refine List.map_congr_left (fun m _ => ?_)
  by_cases hm : m.id = uid <;> simp [Function.comp, hm]

theorem editUserUpdate_getElem?_untouched (msgs : Conversation) (uid np : String)
    (i : Nat) (m : ChatMessage) (hm : msgs[i]? = some m) (h : m.id ≠ uid) :
    (editUserUpdate msgs uid np)[i]? = some m := by
  unfold editUserUpdate
  rw [List.getElem?_map, hm]
  simp [h]

theorem editUserUpdate_map_error (msgs : Conversation) (uid np : String) :
    (editUserUpdate msgs uid np).map (fun m => m.error)
      = msgs.map (fun m => m.error) := by
  unfold editUserUpdate
  rw [List.map_map]
  refine List.map_congr_left (fun m _ => ?_)
  by_cases hm : m.id = uid <;> simp [Function.comp, hm]

/-- C2: when the target user entry (with its payload) and its associated
bot entry both exist, retry and edit preserve the entry count, the order
of entry ids, and the bot entry's id, replacing only the user / bot
entries in place by id. -/
theorem claim2_retry_edit_frame (msgs : Conversation) (uid newPrompt : String)
    (remote : Nat → Except JsValue GenResponse) (u b : ChatMessage)
    (pay pay2 : RequestPayload)
    (hu : msgs.find? (fun m => m.id == uid) = some u)
    (hpay : u.requestPayload = some pay)
    (hb : msgs.find? (fun m => m.userMessageId == some uid) = some b)
    (horig : editOriginalPayload msgs uid = some pay2) :
    ((handleRetry msgs uid remote).final.length = msgs.length ∧
     (handleRetry msgs uid remote).final.map (fun m => m.id)
        = msgs.map (fun m => m.id) ∧
     (∀ (i : Nat) (m : ChatMessage), msgs[i]? = some m → m.id ≠ uid → m.id ≠ b.id →
        (handleRetry msgs uid remote).final[i]? = some m)) ∧
    ((handleEdit msgs uid newPrompt remote).final.length = msgs.length ∧
     (handleEdit msgs uid newPrompt remote).final.map (fun m => m.id)
        = msgs.map (fun m => m.id) ∧
     (∀ (i : Nat) (m : ChatMessage), msgs[i]? = some m → m.id ≠ uid → m.id ≠ b.id →
        (handleEdit msgs uid newPrompt remote).final[i]? = some m)) := by
  have hretry : (handleRetry msgs uid remote).final
      = replaceById (replaceById msgs b.id (mkLoadingBot b.id uid)) b.id
          (terminalBot b.id uid (callGeminiApi pay remote)) := by
    simp [handleRetry, hu, hb, hpay, processRequest]
  have hedit : (handleEdit msgs uid newPrompt remote).final
      = replaceById (replaceById (editUserUpdate msgs uid newPrompt) b.id
            (mkLoadingBot b.id uid)) b.id
          (terminalBot b.id uid
            (callGeminiApi { pay2 with prompt := newPrompt } remote)) := by
    simp [handleEdit, horig, hb, processRequest]
  refine ⟨⟨?_, ?_, ?_⟩, ⟨?_, ?_, ?_⟩⟩
  · rw [hretry, replaceById_length, replaceById_length]
  · rw [hretry,
      replaceById_map_id (replaceById msgs b.id (mkLoadingBot b.id uid)) b.id
        (terminalBot b.id uid (callGeminiApi pay remote)) (terminalBot_id b.id uid _),
      replaceById_map_id msgs b.id (mkLoadingBot b.id uid) rfl]
  · intro i m hm h1 h2
    rw [hretry]
    exact replaceById_getElem?_untouched _ _ _ _ _
      (replaceById_getElem?_untouched _ _ _ _ _ hm h2) h2
  · rw [hedit, replaceById_length, replaceById_length, editUserUpdate_length]
  · rw [hedit,
      replaceById_map_id
        (replaceById (editUserUpdate msgs uid newPrompt) b.id (mkLoadingBot b.id uid))
        b.id
        (terminalBot b.id uid
          (callGeminiApi { pay2 with prompt := newPrompt } remote))
        (terminalBot_id b.id uid _),
      replaceById_map_id (editUserUpdate msgs uid newPrompt) b.id
        (mkLoadingBot b.id uid) rfl,
      editUserUpdate_map_id]
  · intro i m hm h1 h2
    rw [hedit]
    exact replaceById_getElem?_untouched _ _ _ _ _
      (replaceById_getElem?_untouched _ _ _ _ _
        (editUserUpdate_getElem?_untouched _ _ _ _ _ hm h1) h2) h2

theorem claim2_retry_edit_frame_witness :
    ([exUserMsg, exBotMsg].find? (fun m => m.id == "u1") = some exUserMsg) ∧
    ((handleRetry [exUserMsg, exBotMsg] "u1" exRemoteOk).final.map (fun m => m.id)
        = [exUserMsg, exBotMsg].map (fun m => m.id)) ∧
    ((handleEdit [exUserMsg, exBotMsg] "u1" "new" exRemoteOk).final.length = 2) := by
  have h := claim2_retry_edit_frame [exUserMsg, exBotMsg] "u1" "new" exRemoteOk
    exUserMsg exBotMsg exImagePayload exImagePayload (by decide) rfl (by decide)
    (by decide)
  refine ⟨by decide, h.1.2.1, ?_⟩
  rw [h.2.1]
  rfl

def exUserNoBot : ChatMessage :=
  { id := "u1", role := .user, text := some "old",
    requestPayload := some exImagePayload }

/-- C7 counterexample: invoking edit for a user entry with a payload but
no associated bot entry is an aborted, logged re-run, yet the
conversation entries are NOT left unchanged — the user entry's text and
payload prompt are rewritten before the abort. -/
theorem claim7_counterexample :
    (handleEdit [exUserNoBot] "u1" "new" exRemoteOk).issuedPayload = none ∧
    (handleEdit [exUserNoBot] "u1" "new" exRemoteOk).loggedError = true ∧
    (handleEdit [exUserNoBot] "u1" "new" exRemoteOk).final ≠ [exUserNoBot] := by
  refine ⟨?_, ?_, ?_⟩ <;> decide

/-- C7 (amended): with no matching user entry, no captured payload, or no
matching bot entry, retry and edit issue no request and only log the
failure; retry leaves the conversation unchanged, and edit leaves it
unchanged when no entry matches the id, but a matching user entry is
still rewritten in place (text and payload prompt) before the abort; in
all abort cases no entry gains an error field. -/
theorem claim7_amended_silent_abort (msgs : Conversation) (uid newPrompt : String)
    (remote : Nat → Except JsValue GenResponse) :
    (((msgs.find? (fun m => m.id == uid)).bind (fun m => m.requestPayload) = none ∨
        msgs.find? (fun m => m.userMessageId == some uid) = none) →
      handleRetry msgs uid remote
        = { final := msgs, issuedPayload := none, loggedError := true }) ∧
    ((editOriginalPayload msgs uid = none ∨
        msgs.find? (fun m => m.userMessageId == some uid) = none) →
      handleEdit msgs uid newPrompt remote
        = { final := editUserUpdate msgs uid newPrompt, issuedPayload := none,
            loggedError := true } ∧
      (handleEdit msgs uid newPrompt remote).final.map (fun m => m.error)
        = msgs.map (fun m => m.error)) ∧
    (msgs.find? (fun m => m.id == uid) = none →
      editUserUpdate msgs uid newPrompt = msgs) := by
  refine ⟨?_, ?_, ?_⟩
  · intro h
    cases hbind : (msgs.find? (fun m => m.id == uid)).bind (fun m => m.requestPayload) with
    | none =>
        cases hbot : msgs.find? (fun m => m.userMessageId == some uid) with
        | none => simp [handleRetry, hbind, hbot]
        | some b => simp [handleRetry, hbind, hbot]
    | some p =>
        cases hbot : msgs.find? (fun m => m.userMessageId == some uid) with
        | none => simp [handleRetry, hbind, hbot]
        | some b =>
            rcases h with h | h
            · rw [hbind] at h
              exact absurd h (by simp)
            · rw [hbot] at h
              exact absurd h (by simp)
  · intro h
    have habort : handleEdit msgs uid newPrompt remote
        = { final := editUserUpdate msgs uid newPrompt, issuedPayload := none,
            loggedError := true } := by
      cases horig : editOriginalPayload msgs uid with
      | none =>
          cases hbot : msgs.find? (fun m => m.userMessageId == some uid) with
          | none => simp [handleEdit, horig, hbot]
          | some b => simp [handleEdit, horig, hbot]
      | some p =>
          cases hbot : msgs.find? (fun m => m.userMessageId == some uid) with
          | none => simp [handleEdit, horig, hbot]
          | some b =>
              rcases h with h | h
              · rw [horig] at h
                exact absurd h (by simp)
              · rw [hbot] at h
                exact absurd h (by simp)
    refine ⟨habort, ?_⟩
    rw [habort]
    exact editUserUpdate_map_error msgs uid newPrompt
  · intro h
    have hnone := List.find?_eq_none.mp h
    unfold editUserUpdate
    have hcong : ∀ m ∈ msgs,
        (if m.id = uid then
          { m with text := some newPrompt,
                   requestPayload := m.requestPayload.map
                     (fun p => { p with prompt := newPrompt }) }
         else m) = m := by
      intro m hm
      rw [if_neg]
      simpa using hnone m hm
    rw [List.map_congr_left hcong]
    simp

theorem claim7_amended_silent_abort_witness :
    (([] : Conversation).find? (fun m => m.id == "u1") = none) ∧
    handleRetry [] "u1" exRemoteOk
      = { final := [], issuedPayload := none, loggedError := true } ∧
    editUserUpdate [] "u1" "new" = [] := by
  have h := claim7_amended_silent_abort [] "u1" "new" exRemoteOk
  exact ⟨rfl, h.1 (Or.inl rfl), h.2.2 rfl⟩

end AIGen
